import Mathlib

/-!
Verification of the iec62056 retrieval service and cache-dumper actor.

The definitions below are a shallow embedding of the Go sources:
* the HTTP local measurement service (`pagination`, `getParams`,
  `paginate`, `getContext`, `get` / `getPage` / `getAll`, `ServeHTTP`);
* the `CacheDumper` actor (`Do`).

The `PagerActor` / `MeasurementRepo` implementations are not part of the
provided sources; the service is therefore parameterised over an abstract
actor behaviour, and where a claim needs the pager's own semantics a
definition modelled from the specification is used (each such definition
says so in its doc comment).
-/

namespace IEC

/-- Decimal digit value of a character, or `none` for a non-digit
(Go `strconv` accepts only ASCII digits in base 10). -/
def digitVal (c : Char) : Option Nat :=
  if '0' ≤ c ∧ c ≤ '9' then some (c.toNat - '0'.toNat) else none

/-- Accumulate a decimal number over a list of characters; `none` on the
first non-digit character. -/
def parseDigitsAux : List Char → Nat → Option Nat
  | [], acc => some acc
  | c :: cs, acc =>
    match digitVal c with
    | some d => parseDigitsAux cs (acc * 10 + d)
    | none => none

/-- Parse a non-empty all-digit character list as a natural number. -/
def parseDigits (cs : List Char) : Option Nat :=
  if cs.isEmpty then none else parseDigitsAux cs 0

/-- Largest value of Go's 64-bit `int`. -/
def int64Max : Int := 2 ^ 63 - 1

/-- Smallest value of Go's 64-bit `int`. -/
def int64Min : Int := -(2 ^ 63)

/-- Embedding of Go `strconv.Atoi`: an optional single `+`/`-` sign
followed by at least one decimal digit, with the 64-bit `int` range
check (`ErrRange` is an error, so an out-of-range string yields `none`). -/
def atoi (s : String) : Option Int :=
  let cs := s.data
  let signed : Bool × List Char :=
    match cs with
    | '-' :: rest => (true, rest)
    | '+' :: rest => (false, rest)
    | _ => (false, cs)
  match parseDigits signed.2 with
  | none => none
  | some n =>
    let v : Int := if signed.1 then -(n : Int) else (n : Int)
    if int64Min ≤ v ∧ v ≤ int64Max then some v else none

/-- Lowercasing of one character as Go `unicode.ToLower` (the per-rune
mapping applied by `strings.ToLower`) behaves on every comparison
against an ASCII character: ASCII `A`-`Z` map to `a`-`z`, and the only
code points above `0x7F` whose simple Unicode lowercase is an ASCII
character — U+0130 LATIN CAPITAL LETTER I WITH DOT ABOVE (to `i`) and
U+212A KELVIN SIGN (to `k`) — are mapped to it. Every other non-ASCII
character lowercases, in Go, to another non-ASCII character and is kept
unchanged here; either way it is unequal to every ASCII character, so
the two functions classify identically against the ASCII-only path
constants below. -/
def lowerChar (c : Char) : Char :=
  if 'A' ≤ c ∧ c ≤ 'Z' then Char.ofNat (c.toNat + 32)
  else if c.toNat = 0x130 then 'i'
  else if c.toNat = 0x212A then 'k'
  else c

/-- Embedding of `strings.ToLower`, per-character via `lowerChar`; it
agrees with Go on every equality or prefix comparison against an
ASCII-only string (see `lowerChar`), which is the only way the service
consumes it. -/
def lowerStr (s : String) : String :=
  String.mk (s.data.map lowerChar)

/-- Meaning of `startsWithL pre cs`: the list `cs` begins with the list `pre`. -/
def startsWithL : List Char → List Char → Bool
  | [], _ => true
  | _ :: _, [] => false
  | c :: cs, d :: ds => c == d && startsWithL cs ds

/-- Embedding of Go `strings.HasPrefix s pre`. -/
def goHasPre (s pre : String) : Bool :=
  startsWithL pre.data s.data

/-- An incoming HTTP request, reduced to the parts the handler reads:
the URL path, the `page` and `size` form values (Go `FormValue` returns
`""` when the parameter is absent, and the code only tests the length),
and whether `ParseForm` succeeds. -/
structure Request where
  urlPath : String
  pageParam : String
  sizeParam : String
  parseFormOk : Bool
deriving Repr, DecidableEq

/-- The `pagination` struct: parsed `page` and `size` and the error
messages accumulated in the `errPagination` builder (`err` is set iff
the builder is non-empty, i.e. `errMsgs ≠ []`). -/
structure Pagination where
  page : Int
  size : Int
  errMsgs : List String
deriving Repr, DecidableEq

/-- The `serr.Len() > 0` check: whether `getParams` recorded any parameter error. -/
def Pagination.hasErr (p : Pagination) : Bool :=
  !p.errMsgs.isEmpty

/-- The `page` block of `getParams`: the field defaults to 0; a present
value (`len(page) != 0`) is parsed with `Atoi`, a parse failure or a
negative value appends a message (the source's spelling is kept) and
leaves the field 0. -/
def pagePart (s : String) : Int × List String :=
  if s.length ≠ 0 then
    match atoi s with
    | none => (0, ["\tpage parameter error\n"])
    | some v =>
      if v < 0 then (0, ["\tpage parameter cannog be negative\n"])
      else (v, [])
  else (0, [])

/-- The `size` block of `getParams` (`len(size) > 0` guard). -/
def sizePart (s : String) : Int × List String :=
  if s.length > 0 then
    match atoi s with
    | none => (0, ["\tsize parameter error\n"])
    | some v =>
      if v < 0 then (0, ["\tsize parameter cannot be negative\n"])
      else (v, [])
  else (0, [])

/-- Embedding of `(*pagination).getParams`: the two parameter blocks,
then the combined invariant `p.page > 0 && p.size == 0` appends its
message; `err` is set iff any message was written. -/
def getParams (pageS sizeS : String) : Pagination :=
  let pageRes := pagePart pageS
  let sizeRes := sizePart sizeS
  let comboMsgs : List String :=
    if pageRes.1 > 0 ∧ sizeRes.1 = 0 then
      ["\tnon zero page parameter requires non zero limit\n"]
    else []
  ⟨pageRes.1, sizeRes.1, pageRes.2 ++ sizeRes.2 ++ comboMsgs⟩

/-- Embedding of `(*pagination).paginate`: no error and positive size. -/
def Pagination.paginate (p : Pagination) : Bool :=
  !p.hasErr && decide (p.size > 0)

/-- The `path` constant. -/
def pathC : String := "/measurements"

/-- The `pathSlash` constant. -/
def pathSlash : String := "/measurements/"

/-- The `firstPath` constant. -/
def firstPath : String := "/measurements/first"

/-- The `lastPath` constant. -/
def lastPath : String := "/measurements/last"

/-- The possible values of `requestContext.err`. -/
inductive CtxErr
  | badParam
  | formErr
  | pagErr (msgs : List String)
deriving Repr, DecidableEq

/-- The `requestContext` struct. -/
structure RequestContext where
  first : Bool := false
  last : Bool := false
  err : Option CtxErr := none
  pag : Option Pagination := none
deriving Repr, DecidableEq

/-- Embedding of `getContext`: lowercase the URL path; a `firstPath` or
`lastPath` prefix selects a positional lookup; the exact `path` /
`pathSlash` continues to `ParseForm` and `NewPagination`; anything else
is `ErrBadParameter`. -/
def getContext (r : Request) : RequestContext :=
  let p := lowerStr r.urlPath
  if goHasPre p firstPath then { first := true }
  else if goHasPre p lastPath then { last := true }
  else if p = pathC ∨ p = pathSlash then
    if !r.parseFormOk then { err := some .formErr }
    else
      let pag := getParams r.pageParam r.sizeParam
      if pag.hasErr then { err := some (.pagErr pag.errMsgs) }
      else { pag := some pag }
  else { err := some .badParam }

/-- Modelled from the spec: the sentinel key `model.First` ("always
resolve[s] to index 0"); the `model` package is not among the sources,
only its use as `a.Get(model.First)`. The exact string is immaterial to
the claims, only its identity. -/
def First : String := "first"

/-- Modelled from the spec: the sentinel key `model.Last` (resolves to
index length-1); see `First`. -/
def Last : String := "last"

/-- An abstract behaviour of the `PagerActor` the handler constructs:
the result of each of its three operations, mirroring the Go pairs
`(*Measurement, error)` and `([]*Measurement, error)`. Errors are their
`Error()` strings, which is all the handler uses. `M` is the (opaque)
measurement type. -/
structure ActorBehavior (M : Type) where
  getRes : String → Option M × Option String
  getPageRes : Int → Int → List M × Option String
  getAllRes : List M × Option String

/-- The `Data` field of a `MeasurementsResponse`: one measurement (for
first/last) or a sequence (for page / all). -/
inductive RespData (M : Type)
  | one (m : M)
  | many (ms : List M)
deriving Repr, DecidableEq

/-- The `MeasurementsResponse` struct (its single `Data` field). -/
structure MeasurementsResponse (M : Type) where
  data : RespData M
deriving Repr, DecidableEq

/-- Which repository-backed `PagerActor` operation `ServeHTTP` invoked
for a request, if any. -/
inductive RepoCall
  | getKey (key : String)
  | getPageC (page size : Int)
  | getAllC
deriving Repr, DecidableEq

/-- What the handler writes back: `http.Error` with a status code and
message, or the JSON-serialised `MeasurementsResponse` (serialisation of
this struct cannot fail, so the marshal-error branch is dead and the
success value is kept structured). -/
inductive HttpOut (M : Type)
  | httpError (status : Nat) (body : String)
  | ok (mr : MeasurementsResponse M)
deriving Repr, DecidableEq

/-- Embedding of the free function `get`: `a.Get(key)`, error first,
then the nil-measurement guard. -/
def getSvc (a : ActorBehavior M) (key : String) :
    Except String (MeasurementsResponse M) :=
  match a.getRes key with
  | (_, some e) => .error e
  | (none, none) => .error "dumpsvc.get: unexpected nil result"
  | (some m, none) => .ok ⟨.one m⟩

/-- Embedding of the free function `getPage`. -/
def getPageSvc (a : ActorBehavior M) (pag : Pagination) :
    Except String (MeasurementsResponse M) :=
  match a.getPageRes pag.page pag.size with
  | (_, some e) => .error e
  | (ms, none) => .ok ⟨.many ms⟩

/-- Embedding of the free function `getAll`. -/
def getAllSvc (a : ActorBehavior M) :
    Except String (MeasurementsResponse M) :=
  match a.getAllRes with
  | (_, some e) => .error e
  | (ms, none) => .ok ⟨.many ms⟩

/-- Embedding of `(*GetAllHandler).ServeHTTP`, additionally recording
which `PagerActor` operation was invoked (`none` when the request was
rejected before the actor was used). A context error is a 400
"bad request"; a retrieval error is a 500 with the error's message. -/
def serveHTTP (a : ActorBehavior M) (r : Request) :
    HttpOut M × Option RepoCall :=
  let ctx := getContext r
  match ctx.err with
  | some _ => (.httpError 400 "bad request", none)
  | none =>
    let dispatched : Except String (MeasurementsResponse M) × RepoCall :=
      if ctx.first then (getSvc a First, .getKey First)
      else if ctx.last then (getSvc a Last, .getKey Last)
      else
        match ctx.pag with
        | some pag =>
          if pag.paginate then (getPageSvc a pag, .getPageC pag.page pag.size)
          else (getAllSvc a, .getAllC)
        | none => (getAllSvc a, .getAllC)
    match dispatched.1 with
    | .error e => (.httpError 500 ("internal error: " ++ e), some dispatched.2)
    | .ok mr => (.ok mr, some dispatched.2)

/-- Modelled from the spec: the Pager Actor's `GetPage` result over a
repository holding the ordered list `repo` — "an ordered sub-sequence of
Measurements corresponding to the half-open range
`[page*size, page*size+size)` clamped to the Repository's bounds".
The `PagerActor` and `MeasurementRepo` sources are not provided. -/
def getPageModel (repo : List M) (page size : Nat) : List M :=
  (repo.drop (page * size)).take size

/-- Modelled from the spec: a `PagerActor` over a repository holding the
ordered list `repo`. `Get(First)` is the earliest element, `Get(Last)`
the most recent (`nil` with no error when the repository is empty — the
"no data" outcome, "a normal, expected outcome mapped to an empty/absent
result", distinguished from errors); `GetPage` is the clamped slice;
`GetAll` the whole sequence; none of them fail absent a storage fault. -/
def specPager (repo : List M) : ActorBehavior M where
  getRes key :=
    if key = First then (repo.head?, none)
    else if key = Last then (repo.getLast?, none)
    else (none, none)
  getPageRes page size := (getPageModel repo page.toNat size.toNat, none)
  getAllRes := (repo, none)

/-- Embedding of `(*CacheDumper).Do`, parameterised over the repository
read result, the `%+v` rendering of a measurement, and the sink: an
`io.Writer` is a state `σ` with a `write` step returning the new state
and a possible write error, which the Go code discards (`Fprintf`'s
results are ignored). Returns the final sink state and `Do`'s return
value. -/
def cacheDumperDo (readAll : Except E (List M)) (fmtM : M → String)
    (write : σ → String → σ × Option W) (s0 : σ) : σ × Option E :=
  match readAll with
  | .error e => (s0, some e)
  | .ok ms => (ms.foldl (fun s v => (write s (fmtM v)).1) s0, none)

/-! ### Helper lemmas -/

/-- Characterisation of `startsWithL`: the candidate's first `pre.length`
characters are exactly `pre`. -/
theorem startsWithL_iff (pre cs : List Char) :
    startsWithL pre cs = true ↔ cs.take pre.length = pre := by
  induction pre generalizing cs with
  | nil => simp [startsWithL]
  | cons p ps ih =>
    cases cs with
    | nil => simp [startsWithL]
    | cons c cs' =>
      simp only [startsWithL, Bool.and_eq_true, beq_iff_eq, ih,
        List.length_cons, List.take_succ_cons, List.cons.injEq]
      tauto

/-- A path beginning with `lastPath` cannot also begin with `firstPath`
(they differ within the first 18 characters). -/
theorem not_first_of_last (s : String) (h : goHasPre s lastPath = true) :
    goHasPre s firstPath = false := by
  rw [goHasPre, startsWithL_iff] at h
  by_contra hf
  rw [Bool.not_eq_false, goHasPre, startsWithL_iff] at hf
  have hl1 : lastPath.data.length = 18 := by decide
  have hl2 : firstPath.data.length = 19 := by decide
  rw [hl1] at h
  rw [hl2] at hf
  have h18 := congrArg (List.take 18) hf
  rw [List.take_take] at h18
  have : lastPath.data = List.take (min 18 19) firstPath.data := h.symm.trans h18
  exact absurd this (by decide)

theorem ghp_first_pathC : goHasPre pathC firstPath = false := by decide

theorem ghp_last_pathC : goHasPre pathC lastPath = false := by decide

theorem ghp_first_slash : goHasPre pathSlash firstPath = false := by decide

theorem ghp_last_slash : goHasPre pathSlash lastPath = false := by decide

/-- Value of `getContext` on a path with the `firstPath` prefix. -/
theorem getContext_first (r : Request)
    (h : goHasPre (lowerStr r.urlPath) firstPath = true) :
    getContext r = { first := true } := by
  unfold getContext
  simp [h]

/-- Value of `getContext` on a path with the `lastPath` prefix. -/
theorem getContext_last (r : Request)
    (h : goHasPre (lowerStr r.urlPath) lastPath = true) :
    getContext r = { last := true } := by
  have hf := not_first_of_last _ h
  unfold getContext
  simp [h, hf]

/-- Value of `getContext` on an unrecognised path. -/
theorem getContext_bad (r : Request)
    (hf : goHasPre (lowerStr r.urlPath) firstPath = false)
    (hl : goHasPre (lowerStr r.urlPath) lastPath = false)
    (h1 : lowerStr r.urlPath ≠ pathC) (h2 : lowerStr r.urlPath ≠ pathSlash) :
    getContext r = { err := some .badParam } := by
  unfold getContext
  simp [hf, hl, h1, h2]

/-- Value of `getContext` on the measurements path when `ParseForm` fails. -/
theorem getContext_form (r : Request)
    (h : lowerStr r.urlPath = pathC ∨ lowerStr r.urlPath = pathSlash)
    (hpf : r.parseFormOk = false) :
    getContext r = { err := some .formErr } := by
  unfold getContext
  rcases h with h | h <;>
    rw [h] <;>
    simp [ghp_first_pathC, ghp_last_pathC, ghp_first_slash, ghp_last_slash, hpf]

/-- Value of `getContext` on the measurements path when the parameters have an
error. -/
theorem getContext_pagErr (r : Request)
    (h : lowerStr r.urlPath = pathC ∨ lowerStr r.urlPath = pathSlash)
    (hpf : r.parseFormOk = true)
    (he : (getParams r.pageParam r.sizeParam).hasErr = true) :
    getContext r =
      { err := some (.pagErr (getParams r.pageParam r.sizeParam).errMsgs) } := by
  unfold getContext
  rcases h with h | h <;>
    rw [h] <;>
    simp [ghp_first_pathC, ghp_last_pathC, ghp_first_slash, ghp_last_slash, hpf, he]

/-- Value of `getContext` on the measurements path with well-formed parameters. -/
theorem getContext_ok (r : Request)
    (h : lowerStr r.urlPath = pathC ∨ lowerStr r.urlPath = pathSlash)
    (hpf : r.parseFormOk = true)
    (he : (getParams r.pageParam r.sizeParam).hasErr = false) :
    getContext r = { pag := some (getParams r.pageParam r.sizeParam) } := by
  unfold getContext
  rcases h with h | h <;>
    rw [h] <;>
    simp [ghp_first_pathC, ghp_last_pathC, ghp_first_slash, ghp_last_slash, hpf, he]

/-- A context error is answered with 400 "bad request" and no actor
call. -/
theorem serveHTTP_ctxErr (a : ActorBehavior M) (r : Request) (c : CtxErr)
    (h : getContext r = { err := some c }) :
    serveHTTP a r = (.httpError 400 "bad request", none) := by
  unfold serveHTTP
  rw [h]

theorem serveHTTP_first_err (a : ActorBehavior M) (r : Request) (e : String)
    (h : getContext r = { first := true }) (he : getSvc a First = .error e) :
    serveHTTP a r =
      (.httpError 500 ("internal error: " ++ e), some (.getKey First)) := by
  unfold serveHTTP
  rw [h]
  simp [he]

theorem serveHTTP_first_ok (a : ActorBehavior M) (r : Request)
    (mr : MeasurementsResponse M)
    (h : getContext r = { first := true }) (he : getSvc a First = .ok mr) :
    serveHTTP a r = (.ok mr, some (.getKey First)) := by
  unfold serveHTTP
  rw [h]
  simp [he]

theorem serveHTTP_last_err (a : ActorBehavior M) (r : Request) (e : String)
    (h : getContext r = { last := true }) (he : getSvc a Last = .error e) :
    serveHTTP a r =
      (.httpError 500 ("internal error: " ++ e), some (.getKey Last)) := by
  unfold serveHTTP
  rw [h]
  simp [he]

theorem serveHTTP_last_ok (a : ActorBehavior M) (r : Request)
    (mr : MeasurementsResponse M)
    (h : getContext r = { last := true }) (he : getSvc a Last = .ok mr) :
    serveHTTP a r = (.ok mr, some (.getKey Last)) := by
  unfold serveHTTP
  rw [h]
  simp [he]

theorem serveHTTP_page_err (a : ActorBehavior M) (r : Request)
    (pag : Pagination) (e : String)
    (h : getContext r = { pag := some pag }) (hp : pag.paginate = true)
    (he : getPageSvc a pag = .error e) :
    serveHTTP a r =
      (.httpError 500 ("internal error: " ++ e),
       some (.getPageC pag.page pag.size)) := by
  unfold serveHTTP
  rw [h]
  simp [hp, he]

theorem serveHTTP_page_ok (a : ActorBehavior M) (r : Request)
    (pag : Pagination) (mr : MeasurementsResponse M)
    (h : getContext r = { pag := some pag }) (hp : pag.paginate = true)
    (he : getPageSvc a pag = .ok mr) :
    serveHTTP a r = (.ok mr, some (.getPageC pag.page pag.size)) := by
  unfold serveHTTP
  rw [h]
  simp [hp, he]

theorem serveHTTP_all_err (a : ActorBehavior M) (r : Request)
    (pag : Pagination) (e : String)
    (h : getContext r = { pag := some pag }) (hp : pag.paginate = false)
    (he : getAllSvc a = .error e) :
    serveHTTP a r =
      (.httpError 500 ("internal error: " ++ e), some .getAllC) := by
  unfold serveHTTP
  rw [h]
  simp [hp, he]

theorem serveHTTP_all_ok (a : ActorBehavior M) (r : Request)
    (pag : Pagination) (mr : MeasurementsResponse M)
    (h : getContext r = { pag := some pag }) (hp : pag.paginate = false)
    (he : getAllSvc a = .ok mr) :
    serveHTTP a r = (.ok mr, some .getAllC) := by
  unfold serveHTTP
  rw [h]
  simp [hp, he]

/-- Whatever the lookup returns, a first-prefixed request records the
`Get(First)` call. -/
theorem serveHTTP_call_first (a : ActorBehavior M) (r : Request)
    (h : getContext r = { first := true }) :
    (serveHTTP a r).2 = some (.getKey First) := by
  cases he : getSvc a First with
  | error e => rw [serveHTTP_first_err a r e h he]
  | ok mr => rw [serveHTTP_first_ok a r mr h he]

/-- Whatever the lookup returns, a last-prefixed request records the
`Get(Last)` call. -/
theorem serveHTTP_call_last (a : ActorBehavior M) (r : Request)
    (h : getContext r = { last := true }) :
    (serveHTTP a r).2 = some (.getKey Last) := by
  cases he : getSvc a Last with
  | error e => rw [serveHTTP_last_err a r e h he]
  | ok mr => rw [serveHTTP_last_ok a r mr h he]

theorem hasErr_iff (p : Pagination) : p.hasErr = true ↔ p.errMsgs ≠ [] := by
  rcases p with ⟨pg, sz, msgs⟩
  cases msgs <;> simp [Pagination.hasErr]

theorem getParams_page (ps ss : String) :
    (getParams ps ss).page = (pagePart ps).1 := rfl

theorem getParams_size (ps ss : String) :
    (getParams ps ss).size = (sizePart ss).1 := rfl

theorem getParams_errMsgs (ps ss : String) :
    (getParams ps ss).errMsgs =
      (pagePart ps).2 ++ (sizePart ss).2 ++
        (if (pagePart ps).1 > 0 ∧ (sizePart ss).1 = 0 then
          ["\tnon zero page parameter requires non zero limit\n"]
        else []) := rfl

/-- A positive parsed page with a zero parsed size always records the
combined-invariant message. -/
theorem getParams_hasErr_combo (ps ss : String)
    (hp : 0 < (getParams ps ss).page) (hs : (getParams ps ss).size = 0) :
    (getParams ps ss).hasErr = true := by
  rw [hasErr_iff, getParams_errMsgs]
  rw [getParams_page] at hp
  rw [getParams_size] at hs
  rw [if_pos ⟨hp, hs⟩]
  simp

/-- Any message from the page block makes the parameters erroneous. -/
theorem getParams_hasErr_left (ps ss : String) (h : (pagePart ps).2 ≠ []) :
    (getParams ps ss).hasErr = true := by
  rw [hasErr_iff, getParams_errMsgs]
  simp [h]

/-- Any message from the size block makes the parameters erroneous. -/
theorem getParams_hasErr_right (ps ss : String) (h : (sizePart ss).2 ≠ []) :
    (getParams ps ss).hasErr = true := by
  rw [hasErr_iff, getParams_errMsgs]
  simp [h]

theorem pagePart_bad (ps : String) (h0 : ps.length ≠ 0) (h : atoi ps = none) :
    pagePart ps = (0, ["\tpage parameter error\n"]) := by
  unfold pagePart
  rw [if_pos h0, h]

theorem pagePart_neg (ps : String) (v : Int) (h0 : ps.length ≠ 0)
    (h : atoi ps = some v) (hv : v < 0) :
    pagePart ps = (0, ["\tpage parameter cannog be negative\n"]) := by
  unfold pagePart
  rw [if_pos h0, h]
  simp [hv]

theorem sizePart_bad (ss : String) (h0 : ss.length > 0) (h : atoi ss = none) :
    sizePart ss = (0, ["\tsize parameter error\n"]) := by
  unfold sizePart
  rw [if_pos h0, h]

theorem sizePart_neg (ss : String) (v : Int) (h0 : ss.length > 0)
    (h : atoi ss = some v) (hv : v < 0) :
    sizePart ss = (0, ["\tsize parameter cannot be negative\n"]) := by
  unfold sizePart
  rw [if_pos h0, h]
  simp [hv]

/-! ### Concrete actors and requests used by the witnesses -/

/-- A concrete behaviour over a three-element repository. -/
def okBeh : ActorBehavior Nat := specPager [10, 20, 30]

/-- A concrete behaviour whose operations all fail with "boom". -/
def failBeh : ActorBehavior Nat where
  getRes _ := (none, some "boom")
  getPageRes _ _ := ([], some "boom")
  getAllRes := ([], some "boom")

/-- A concrete behaviour returning a nil measurement with a nil error. -/
def nilBeh : ActorBehavior Nat where
  getRes _ := (none, none)
  getPageRes _ _ := ([], none)
  getAllRes := ([], none)

/-! ### The claims -/

/-- C1: every measurements-path request whose parsed page parameter is
positive while the parsed size parameter is 0 is rejected with the
400 "bad request" client error, and no `PagerActor` operation (hence no
repository operation) is invoked. -/
theorem claim1_page_without_size_rejected {M : Type} (a : ActorBehavior M)
    (r : Request)
    (hpath : lowerStr r.urlPath = pathC ∨ lowerStr r.urlPath = pathSlash)
    (hp : 0 < (getParams r.pageParam r.sizeParam).page)
    (hs : (getParams r.pageParam r.sizeParam).size = 0) :
    serveHTTP a r = (.httpError 400 "bad request", none) := by
  cases hpf : r.parseFormOk
  · exact serveHTTP_ctxErr a r _ (getContext_form r hpath hpf)
  · exact serveHTTP_ctxErr a r _
      (getContext_pagErr r hpath hpf (getParams_hasErr_combo _ _ hp hs))

/-- Witness for C1 at `page=1`, absent size. -/
theorem claim1_witness :
    0 < (getParams "1" "").page ∧ (getParams "1" "").size = 0 ∧
      serveHTTP okBeh ⟨"/measurements", "1", "", true⟩ =
        (.httpError 400 "bad request", none) :=
  ⟨by decide, by decide,
    claim1_page_without_size_rejected okBeh ⟨"/measurements", "1", "", true⟩
      (Or.inl (by decide)) (by decide) (by decide)⟩

/-- C8: an absent page parameter parses to page 0, and an absent size
parameter parses to size 0, whatever the other parameter was. -/
theorem claim8_absent_params_default_zero (ps ss : String) :
    (getParams "" ss).page = 0 ∧ (getParams ps "").size = 0 :=
  ⟨rfl, rfl⟩

/-- C3: a measurements-path request with valid parameters and size 0
(explicit or defaulted) is served by the unpaginated `GetAll`, answering
with the entire stored sequence. -/
theorem claim3_size_zero_serves_all {M : Type} (repo : List M) (r : Request)
    (hpath : lowerStr r.urlPath = pathC ∨ lowerStr r.urlPath = pathSlash)
    (hpf : r.parseFormOk = true)
    (he : (getParams r.pageParam r.sizeParam).hasErr = false)
    (hs : (getParams r.pageParam r.sizeParam).size = 0) :
    serveHTTP (specPager repo) r = (.ok ⟨.many repo⟩, some .getAllC) := by
  have hctx := getContext_ok r hpath hpf he
  have hp : (getParams r.pageParam r.sizeParam).paginate = false := by
    simp [Pagination.paginate, hs]
  exact serveHTTP_all_ok (specPager repo) r _ ⟨.many repo⟩ hctx hp rfl

/-- Witness for C3: explicit `size=0` and defaulted parameters. -/
theorem claim3_witness :
    serveHTTP (specPager [10, 20, 30]) ⟨"/measurements", "0", "0", true⟩ =
        (.ok ⟨.many [10, 20, 30]⟩, some .getAllC) ∧
      serveHTTP (specPager [10, 20, 30]) ⟨"/measurements/", "", "", true⟩ =
        (.ok ⟨.many [10, 20, 30]⟩, some .getAllC) :=
  ⟨claim3_size_zero_serves_all [10, 20, 30] ⟨"/measurements", "0", "0", true⟩
      (Or.inl (by decide)) rfl (by decide) (by decide),
    claim3_size_zero_serves_all [10, 20, 30] ⟨"/measurements/", "", "", true⟩
      (Or.inr (by decide)) rfl (by decide) (by decide)⟩

/-- C5: the service routes by URL path — a `firstPath`-prefixed path
invokes `Get(First)`, a `lastPath`-prefixed path `Get(Last)`, valid
parameters with positive size `GetPage(page, size)`, and the remaining
valid default case `GetAll`. -/
theorem claim5_routing {M : Type} (a : ActorBehavior M) (r : Request) :
    (goHasPre (lowerStr r.urlPath) firstPath = true →
      (serveHTTP a r).2 = some (.getKey First)) ∧
    (goHasPre (lowerStr r.urlPath) lastPath = true →
      (serveHTTP a r).2 = some (.getKey Last)) ∧
    ((lowerStr r.urlPath = pathC ∨ lowerStr r.urlPath = pathSlash) →
      r.parseFormOk = true →
      (getParams r.pageParam r.sizeParam).hasErr = false →
      0 < (getParams r.pageParam r.sizeParam).size →
      (serveHTTP a r).2 =
        some (.getPageC (getParams r.pageParam r.sizeParam).page
          (getParams r.pageParam r.sizeParam).size)) ∧
    ((lowerStr r.urlPath = pathC ∨ lowerStr r.urlPath = pathSlash) →
      r.parseFormOk = true →
      (getParams r.pageParam r.sizeParam).hasErr = false →
      (getParams r.pageParam r.sizeParam).size = 0 →
      (serveHTTP a r).2 = some .getAllC) := by
  refine ⟨?_, ?_, ?_, ?_⟩
  · intro h
    exact serveHTTP_call_first a r (getContext_first r h)
  · intro h
    exact serveHTTP_call_last a r (getContext_last r h)
  · intro hpath hpf herr hs
    have hctx := getContext_ok r hpath hpf herr
    have hp : (getParams r.pageParam r.sizeParam).paginate = true := by
      simp only [Pagination.paginate, herr, Bool.not_false, Bool.true_and,
        decide_eq_true_eq]
      omega
    cases he : getPageSvc a (getParams r.pageParam r.sizeParam) with
    | error e => rw [serveHTTP_page_err a r _ e hctx hp he]
    | ok mr => rw [serveHTTP_page_ok a r _ mr hctx hp he]
  · intro hpath hpf herr hs
    have hctx := getContext_ok r hpath hpf herr
    have hp : (getParams r.pageParam r.sizeParam).paginate = false := by
      simp [Pagination.paginate, hs]
    cases he : getAllSvc a with
    | error e => rw [serveHTTP_all_err a r _ e hctx hp he]
    | ok mr => rw [serveHTTP_all_ok a r _ mr hctx hp he]

/-- Witness for C5 at four concrete requests, one per route. -/
theorem claim5_witness :
    (serveHTTP okBeh ⟨"/measurements/first", "", "", true⟩).2 =
        some (.getKey First) ∧
      (serveHTTP okBeh ⟨"/measurements/last", "", "", true⟩).2 =
        some (.getKey Last) ∧
      (serveHTTP okBeh ⟨"/measurements", "1", "2", true⟩).2 =
        some (.getPageC (getParams "1" "2").page (getParams "1" "2").size) ∧
      (serveHTTP okBeh ⟨"/measurements", "", "", true⟩).2 = some .getAllC :=
  ⟨(claim5_routing okBeh ⟨"/measurements/first", "", "", true⟩).1 (by decide),
    (claim5_routing okBeh ⟨"/measurements/last", "", "", true⟩).2.1 (by decide),
    (claim5_routing okBeh ⟨"/measurements", "1", "2", true⟩).2.2.1
      (Or.inl (by decide)) rfl (by decide) (by decide),
    (claim5_routing okBeh ⟨"/measurements", "", "", true⟩).2.2.2
      (Or.inl (by decide)) rfl (by decide) (by decide)⟩

/-- C9: path classification is by lowercased prefix — a lowercased path
beginning with `firstPath` (trailing characters allowed) is a
first-element lookup, one beginning with `lastPath` a last-element
lookup, and any other path that is not exactly `pathC` or `pathSlash`
is rejected with the 400 client error at classification time (the
context carries `badParam`, independent of the parameters). -/
theorem claim9_path_classification {M : Type} (a : ActorBehavior M)
    (r : Request) :
    (goHasPre (lowerStr r.urlPath) firstPath = true →
      getContext r = { first := true } ∧
        (serveHTTP a r).2 = some (.getKey First)) ∧
    (goHasPre (lowerStr r.urlPath) lastPath = true →
      getContext r = { last := true } ∧
        (serveHTTP a r).2 = some (.getKey Last)) ∧
    (goHasPre (lowerStr r.urlPath) firstPath = false →
      goHasPre (lowerStr r.urlPath) lastPath = false →
      lowerStr r.urlPath ≠ pathC → lowerStr r.urlPath ≠ pathSlash →
      getContext r = { err := some .badParam } ∧
        serveHTTP a r = (.httpError 400 "bad request", none)) := by
  refine ⟨?_, ?_, ?_⟩
  · intro h
    exact ⟨getContext_first r h, serveHTTP_call_first a r (getContext_first r h)⟩
  · intro h
    exact ⟨getContext_last r h, serveHTTP_call_last a r (getContext_last r h)⟩
  · intro hf hl h1 h2
    have hctx := getContext_bad r hf hl h1 h2
    exact ⟨hctx, serveHTTP_ctxErr a r _ hctx⟩

/-- Witness for C9: mixed-case prefixes with trailing characters —
including the dotted capital I (U+0130) that lowercases into the ASCII
prefix — and a rejected unrecognised path. -/
theorem claim9_witness :
    (serveHTTP okBeh ⟨"/MEASUREMENTS/FIRSTxyz", "", "", true⟩).2 =
        some (.getKey First) ∧
      (serveHTTP okBeh ⟨"/measurements/fİrstxyz", "", "", true⟩).2 =
        some (.getKey First) ∧
      (serveHTTP okBeh ⟨"/Measurements/Last/9", "", "", true⟩).2 =
        some (.getKey Last) ∧
      serveHTTP okBeh ⟨"/measurementsX", "", "", true⟩ =
        (.httpError 400 "bad request", none) :=
  ⟨((claim9_path_classification okBeh
      ⟨"/MEASUREMENTS/FIRSTxyz", "", "", true⟩).1 (by decide)).2,
    ((claim9_path_classification okBeh
      ⟨"/measurements/fİrstxyz", "", "", true⟩).1 (by decide)).2,
    ((claim9_path_classification okBeh
      ⟨"/Measurements/Last/9", "", "", true⟩).2.1 (by decide)).2,
    ((claim9_path_classification okBeh
      ⟨"/measurementsX", "", "", true⟩).2.2 (by decide) (by decide)
      (by decide) (by decide)).2⟩

/-- C10: when the pager's `Get` returns a nil measurement with a nil
error on a first/last request, the handler answers 500 with the
unexpected-nil diagnostic — never a success response with absent
data. -/
theorem claim10_nil_result_is_server_error {M : Type} (a : ActorBehavior M)
    (r : Request) :
    (goHasPre (lowerStr r.urlPath) firstPath = true →
      a.getRes First = (none, none) →
      serveHTTP a r =
        (.httpError 500 "internal error: dumpsvc.get: unexpected nil result",
         some (.getKey First))) ∧
    (goHasPre (lowerStr r.urlPath) lastPath = true →
      a.getRes Last = (none, none) →
      serveHTTP a r =
        (.httpError 500 "internal error: dumpsvc.get: unexpected nil result",
         some (.getKey Last))) := by
  constructor
  · intro h hres
    have hsvc : getSvc a First = .error "dumpsvc.get: unexpected nil result" := by
      simp [getSvc, hres]
    rw [serveHTTP_first_err a r _ (getContext_first r h) hsvc]
    rw [show ("internal error: " ++ "dumpsvc.get: unexpected nil result" : String)
      = "internal error: dumpsvc.get: unexpected nil result" from by decide]
  · intro h hres
    have hsvc : getSvc a Last = .error "dumpsvc.get: unexpected nil result" := by
      simp [getSvc, hres]
    rw [serveHTTP_last_err a r _ (getContext_last r h) hsvc]
    rw [show ("internal error: " ++ "dumpsvc.get: unexpected nil result" : String)
      = "internal error: dumpsvc.get: unexpected nil result" from by decide]

/-- Witness for C10 with the nil-returning behaviour. -/
theorem claim10_witness :
    serveHTTP nilBeh ⟨"/measurements/first", "", "", true⟩ =
        (.httpError 500 "internal error: dumpsvc.get: unexpected nil result",
         some (.getKey First)) ∧
      serveHTTP nilBeh ⟨"/measurements/last", "", "", true⟩ =
        (.httpError 500 "internal error: dumpsvc.get: unexpected nil result",
         some (.getKey Last)) :=
  ⟨(claim10_nil_result_is_server_error nilBeh
      ⟨"/measurements/first", "", "", true⟩).1 (by decide) rfl,
    (claim10_nil_result_is_server_error nilBeh
      ⟨"/measurements/last", "", "", true⟩).2 (by decide) rfl⟩

/-- C2 (counterexample): on the empty repository modelled per the spec
(`Get(First)` is the absent measurement) the service answers a first
lookup with the 500 server error — the same `httpError` signal a
failing pager produces — not a distinct empty/absent "no data"
result. -/
theorem claim2_counterexample :
    (serveHTTP (specPager ([] : List Nat))
        ⟨"/measurements/first", "", "", true⟩).1 =
      .httpError 500 "internal error: dumpsvc.get: unexpected nil result" ∧
    (serveHTTP failBeh ⟨"/measurements/first", "", "", true⟩).1 =
      .httpError 500 "internal error: boom" := by
  constructor
  · decide
  · decide

/-- C2 (amended): when a first/last lookup yields no measurement (the
no-data outcome, with or without an accompanying error) the service
responds with the 500 server-error signal used for every other failure;
no distinct "no data" response exists for these lookups. -/
theorem claim2_amended_no_data_is_server_error {M : Type}
    (a : ActorBehavior M) (r : Request) :
    (goHasPre (lowerStr r.urlPath) firstPath = true →
      (a.getRes First).1 = none →
      ∃ body, (serveHTTP a r).1 = .httpError 500 body) ∧
    (goHasPre (lowerStr r.urlPath) lastPath = true →
      (a.getRes Last).1 = none →
      ∃ body, (serveHTTP a r).1 = .httpError 500 body) := by
  constructor
  · intro h hnil
    rcases hres : a.getRes First with ⟨mo, oe⟩
    rw [hres] at hnil
    simp at hnil
    subst hnil
    cases oe with
    | none =>
      have hsvc : getSvc a First = .error "dumpsvc.get: unexpected nil result" := by
        simp [getSvc, hres]
      exact ⟨_, by rw [serveHTTP_first_err a r _ (getContext_first r h) hsvc]⟩
    | some e =>
      have hsvc : getSvc a First = .error e := by
        simp [getSvc, hres]
      exact ⟨_, by rw [serveHTTP_first_err a r _ (getContext_first r h) hsvc]⟩
  · intro h hnil
    rcases hres : a.getRes Last with ⟨mo, oe⟩
    rw [hres] at hnil
    simp at hnil
    subst hnil
    cases oe with
    | none =>
      have hsvc : getSvc a Last = .error "dumpsvc.get: unexpected nil result" := by
        simp [getSvc, hres]
      exact ⟨_, by rw [serveHTTP_last_err a r _ (getContext_last r h) hsvc]⟩
    | some e =>
      have hsvc : getSvc a Last = .error e := by
        simp [getSvc, hres]
      exact ⟨_, by rw [serveHTTP_last_err a r _ (getContext_last r h) hsvc]⟩

/-- Witness for the amended C2, on the spec-modelled empty repository. -/
theorem claim2_witness :
    ∃ body,
      (serveHTTP (specPager ([] : List Nat))
          ⟨"/measurements/last", "", "", true⟩).1 = .httpError 500 body :=
  (claim2_amended_no_data_is_server_error (specPager ([] : List Nat))
    ⟨"/measurements/last", "", "", true⟩).2 (by decide) rfl

theorem paginate_true_of (p : Pagination) (he : p.hasErr = false)
    (hs : 0 < p.size) : p.paginate = true := by
  simp only [Pagination.paginate, he, Bool.not_false, Bool.true_and,
    decide_eq_true_eq]
  omega

theorem paginate_false_of (p : Pagination) (hs : p.size = 0) :
    p.paginate = false := by
  simp [Pagination.paginate, hs]

/-- C6: a negative or unparseable page/size parameter on the
measurements path, or an unrecognised path, is answered with the 400
client error; a failure from any pager operation is answered with the
500 server error carrying the failure's message. -/
theorem claim6_error_status_mapping {M : Type} (a : ActorBehavior M)
    (r : Request) :
    (goHasPre (lowerStr r.urlPath) firstPath = false →
      goHasPre (lowerStr r.urlPath) lastPath = false →
      lowerStr r.urlPath ≠ pathC → lowerStr r.urlPath ≠ pathSlash →
      (serveHTTP a r).1 = .httpError 400 "bad request") ∧
    ((lowerStr r.urlPath = pathC ∨ lowerStr r.urlPath = pathSlash) →
      r.pageParam.length ≠ 0 →
      (atoi r.pageParam = none ∨ ∃ v, atoi r.pageParam = some v ∧ v < 0) →
      (serveHTTP a r).1 = .httpError 400 "bad request") ∧
    ((lowerStr r.urlPath = pathC ∨ lowerStr r.urlPath = pathSlash) →
      r.sizeParam.length ≠ 0 →
      (atoi r.sizeParam = none ∨ ∃ v, atoi r.sizeParam = some v ∧ v < 0) →
      (serveHTTP a r).1 = .httpError 400 "bad request") ∧
    (∀ e mo, goHasPre (lowerStr r.urlPath) firstPath = true →
      a.getRes First = (mo, some e) →
      (serveHTTP a r).1 = .httpError 500 ("internal error: " ++ e)) ∧
    (∀ e mo, goHasPre (lowerStr r.urlPath) lastPath = true →
      a.getRes Last = (mo, some e) →
      (serveHTTP a r).1 = .httpError 500 ("internal error: " ++ e)) ∧
    (∀ e ms, (lowerStr r.urlPath = pathC ∨ lowerStr r.urlPath = pathSlash) →
      r.parseFormOk = true →
      (getParams r.pageParam r.sizeParam).hasErr = false →
      0 < (getParams r.pageParam r.sizeParam).size →
      a.getPageRes (getParams r.pageParam r.sizeParam).page
          (getParams r.pageParam r.sizeParam).size = (ms, some e) →
      (serveHTTP a r).1 = .httpError 500 ("internal error: " ++ e)) ∧
    (∀ e ms, (lowerStr r.urlPath = pathC ∨ lowerStr r.urlPath = pathSlash) →
      r.parseFormOk = true →
      (getParams r.pageParam r.sizeParam).hasErr = false →
      (getParams r.pageParam r.sizeParam).size = 0 →
      a.getAllRes = (ms, some e) →
      (serveHTTP a r).1 = .httpError 500 ("internal error: " ++ e)) := by
  refine ⟨?_, ?_, ?_, ?_, ?_, ?_, ?_⟩
  · intro hf hl h1 h2
    rw [serveHTTP_ctxErr a r _ (getContext_bad r hf hl h1 h2)]
  · intro hpath h0 hbad
    cases hpf : r.parseFormOk
    · rw [serveHTTP_ctxErr a r _ (getContext_form r hpath hpf)]
    · have hmsg : (pagePart r.pageParam).2 ≠ [] := by
        rcases hbad with hb | ⟨v, hb, hv⟩
        · rw [pagePart_bad _ h0 hb]
          simp
        · rw [pagePart_neg _ v h0 hb hv]
          simp
      rw [serveHTTP_ctxErr a r _
        (getContext_pagErr r hpath hpf (getParams_hasErr_left _ _ hmsg))]
  · intro hpath h0 hbad
    cases hpf : r.parseFormOk
    · rw [serveHTTP_ctxErr a r _ (getContext_form r hpath hpf)]
    · have h0' : r.sizeParam.length > 0 := Nat.pos_of_ne_zero h0
      have hmsg : (sizePart r.sizeParam).2 ≠ [] := by
        rcases hbad with hb | ⟨v, hb, hv⟩
        · rw [sizePart_bad _ h0' hb]
          simp
        · rw [sizePart_neg _ v h0' hb hv]
          simp
      rw [serveHTTP_ctxErr a r _
        (getContext_pagErr r hpath hpf (getParams_hasErr_right _ _ hmsg))]
  · intro e mo h hres
    have hsvc : getSvc a First = .error e := by
      simp [getSvc, hres]
    rw [serveHTTP_first_err a r e (getContext_first r h) hsvc]
  · intro e mo h hres
    have hsvc : getSvc a Last = .error e := by
      simp [getSvc, hres]
    rw [serveHTTP_last_err a r e (getContext_last r h) hsvc]
  · intro e ms hpath hpf herr hs hres
    have hsvc : getPageSvc a (getParams r.pageParam r.sizeParam) = .error e := by
      simp [getPageSvc, hres]
    rw [serveHTTP_page_err a r _ e (getContext_ok r hpath hpf herr)
      (paginate_true_of _ herr hs) hsvc]
  · intro e ms hpath hpf herr hs hres
    have hsvc : getAllSvc a = .error e := by
      simp [getAllSvc, hres]
    rw [serveHTTP_all_err a r _ e (getContext_ok r hpath hpf herr)
      (paginate_false_of _ hs) hsvc]

/-- Witness for C6 across its seven cases. -/
theorem claim6_witness :
    (serveHTTP okBeh ⟨"/nope", "", "", true⟩).1 =
        .httpError 400 "bad request" ∧
      (serveHTTP okBeh ⟨"/measurements", "abc", "", true⟩).1 =
        .httpError 400 "bad request" ∧
      (serveHTTP okBeh ⟨"/measurements", "", "-4", true⟩).1 =
        .httpError 400 "bad request" ∧
      (serveHTTP failBeh ⟨"/measurements/first", "", "", true⟩).1 =
        .httpError 500 ("internal error: " ++ "boom") ∧
      (serveHTTP failBeh ⟨"/measurements/last", "", "", true⟩).1 =
        .httpError 500 ("internal error: " ++ "boom") ∧
      (serveHTTP failBeh ⟨"/measurements", "0", "2", true⟩).1 =
        .httpError 500 ("internal error: " ++ "boom") ∧
      (serveHTTP failBeh ⟨"/measurements", "", "", true⟩).1 =
        .httpError 500 ("internal error: " ++ "boom") :=
  ⟨(claim6_error_status_mapping okBeh ⟨"/nope", "", "", true⟩).1
      (by decide) (by decide) (by decide) (by decide),
    (claim6_error_status_mapping okBeh ⟨"/measurements", "abc", "", true⟩).2.1
      (Or.inl (by decide)) (by decide) (Or.inl (by decide)),
    (claim6_error_status_mapping okBeh ⟨"/measurements", "", "-4", true⟩).2.2.1
      (Or.inl (by decide)) (by decide) (Or.inr ⟨-4, by decide, by decide⟩),
    (claim6_error_status_mapping failBeh
      ⟨"/measurements/first", "", "", true⟩).2.2.2.1 "boom" none (by decide) rfl,
    (claim6_error_status_mapping failBeh
      ⟨"/measurements/last", "", "", true⟩).2.2.2.2.1 "boom" none (by decide) rfl,
    (claim6_error_status_mapping failBeh
      ⟨"/measurements", "0", "2", true⟩).2.2.2.2.2.1 "boom" []
      (Or.inl (by decide)) rfl (by decide) (by decide) rfl,
    (claim6_error_status_mapping failBeh
      ⟨"/measurements", "", "", true⟩).2.2.2.2.2.2 "boom" []
      (Or.inl (by decide)) rfl (by decide) (by decide) rfl⟩

/-- C4: for valid pagination with positive size, `GetPage` is the
clamped slice `[page*size, page*size+size)` of the ordered history —
its length is at most `size`, its entries are the repository's entries
shifted by `page*size`, and it is the empty sequence (not an error)
when `page*size` is at or beyond the repository's end. -/
theorem claim4_getPage_clamped_slice {M : Type} (repo : List M)
    (page size : Nat) (hs : 0 < size) :
    (getPageModel repo page size).length ≤ size ∧
    getPageModel repo page size =
      (repo.take (page * size + size)).drop (page * size) ∧
    (∀ i (hi : i < (getPageModel repo page size).length),
      ∃ hrep : page * size + i < repo.length,
        (getPageModel repo page size).get ⟨i, hi⟩ =
          repo.get ⟨page * size + i, hrep⟩) ∧
    (repo.length ≤ page * size → getPageModel repo page size = []) := by
  refine ⟨?_, ?_, ?_, ?_⟩
  · simp [getPageModel, List.length_take]
  · rw [getPageModel, List.drop_take]
    congr 1
    omega
  · intro i hi
    have hi' := hi
    simp only [getPageModel, List.length_take, List.length_drop,
      lt_min_iff] at hi'
    have hrep : page * size + i < repo.length := by omega
    refine ⟨hrep, ?_⟩
    simp only [getPageModel, List.get_eq_getElem]
    rw [List.getElem_take, List.getElem_drop]
  · intro h
    simp [getPageModel, List.drop_eq_nil_of_le h]

/-- Witness for C4 on a three-element repository, page 1 of size 2 and
an out-of-range page. -/
theorem claim4_witness :
    0 < 2 ∧
      ((getPageModel [10, 20, 30] 1 2).length ≤ 2 ∧
        getPageModel [10, 20, 30] 1 2 =
          (([10, 20, 30].take (1 * 2 + 2)).drop (1 * 2) : List Nat) ∧
        (∀ i (hi : i < (getPageModel [10, 20, 30] 1 2).length),
          ∃ hrep : 1 * 2 + i < ([10, 20, 30] : List Nat).length,
            (getPageModel [10, 20, 30] 1 2).get ⟨i, hi⟩ =
              ([10, 20, 30] : List Nat).get ⟨1 * 2 + i, hrep⟩) ∧
        (([10, 20, 30] : List Nat).length ≤ 1 * 2 →
          getPageModel [10, 20, 30] 1 2 = [])) :=
  ⟨by decide, claim4_getPage_clamped_slice [10, 20, 30] 1 2 (by decide)⟩

theorem foldl_append_singleton (f : M → String) (ms : List M)
    (acc : List String) :
    ms.foldl (fun s v => s ++ [f v]) acc = acc ++ ms.map f := by
  induction ms generalizing acc with
  | nil => simp
  | cons m tail ih => simp [ih]

/-- C7: `Do` fails exactly when the repository read fails; on a
successful read it writes each measurement's textual form to the sink
once, in repository order (even when individual writes fault), and its
return value never depends on the sink. -/
theorem claim7_cacheDumper_do {E M σ W : Type}
    (readAll : Except E (List M)) (fmtM : M → String)
    (write : σ → String → σ × Option W) (s0 : σ) :
    ((cacheDumperDo readAll fmtM write s0).2 = none ↔
      ∃ ms, readAll = .ok ms) ∧
    (∀ e, (cacheDumperDo readAll fmtM write s0).2 = some e ↔
      readAll = .error e) ∧
    (∀ (fault : List String → String → Option W) (ms : List M),
      readAll = .ok ms →
      (cacheDumperDo readAll fmtM
          (fun tr str => (tr ++ [str], fault tr str)) ([] : List String)).1 =
        ms.map fmtM) ∧
    (∀ (σ2 W2 : Type) (w2 : σ2 → String → σ2 × Option W2) (t0 : σ2),
      (cacheDumperDo readAll fmtM w2 t0).2 =
        (cacheDumperDo readAll fmtM write s0).2) := by
  refine ⟨?_, ?_, ?_, ?_⟩
  · cases readAll <;> simp [cacheDumperDo]
  · intro e
    cases readAll <;> simp [cacheDumperDo]
  · intro fault ms h
    subst h
    simp only [cacheDumperDo]
    rw [foldl_append_singleton]
    simp
  · intro σ2 W2 w2 t0
    cases readAll <;> simp [cacheDumperDo]

/-- Witness for C7: a concrete read of two measurements through a
faulting sink, and a failing read. -/
theorem claim7_witness :
    (cacheDumperDo (Except.ok [5, 6] : Except String (List Nat))
        (fun n : Nat => toString n)
        (fun tr str => (tr ++ [str],
          (fun _ _ => (some () : Option Unit)) tr str)) ([] : List String)).1 =
      [5, 6].map (fun n : Nat => toString n) ∧
    (cacheDumperDo (Except.error "io fault" : Except String (List Nat))
        (fun n : Nat => toString n)
        (fun (s : Unit) _ => (s, (none : Option Unit))) ()).2 =
      some "io fault" :=
  ⟨(claim7_cacheDumper_do (Except.ok [5, 6] : Except String (List Nat))
      (fun n : Nat => toString n)
      (fun tr str => (tr ++ [str], (some () : Option Unit))) []).2.2.1
      (fun _ _ => some ()) [5, 6] rfl,
    ((claim7_cacheDumper_do (Except.error "io fault" : Except String (List Nat))
      (fun n : Nat => toString n)
      (fun (s : Unit) _ => (s, (none : Option Unit))) ()).2.1 "io fault").mpr
      rfl⟩

end IEC
